import Mathlib

/-!
Verification development for the appointment-booking agent.

The definitions below are a shallow embedding of the Python sources:
  * `src/src/services/slot_generator.py`  (SlotGenerator)
  * `src/src/services/supabase_service.py` (SupabaseService, modelled as a pure
    in-memory store: the remote datastore is an external collaborator and its
    per-row operations are embedded as deterministic list operations)
  * `src/src/tools/appointment_tools.py`  (AppointmentTools / ConversationState)
  * `src/src/services/llm_service.py`     (LLMService.generate_response)

Modelling conventions:
  * Calendar dates are represented by their proleptic-Gregorian ordinal
    (`datetime.date.toordinal`: 0001-01-01 has ordinal 1 and was a Monday, so
    `weekday ord = (ord + 6) % 7` with Monday = 0, matching `date.weekday()`).
  * A timezone-aware instant "now" is represented by the pair
    (todayOrd : ordinal of `now.date()`, nowSec : seconds elapsed since local
    midnight).  The user timezone only determines this pair in the source
    (`datetime.now(tz)`), so quantifying over (todayOrd, nowSec) covers every
    timezone, including the fallback-to-UTC path.  Slot times are whole
    minutes, hence comparisons at second granularity coincide exactly with the
    source comparisons at microsecond granularity.
  * Slots produced by the generator carry the date ordinal and numeric
    (hour, minute) instead of the `strftime` strings `YYYY-MM-DD` / `HH:MM`;
    both renderings are injective, so string-set membership of
    (date_str, time_str) coincides with membership of (ordinal, hour, minute)
    for canonically formatted booked sets.
-/

namespace SuperBryn

/-! ## Calendar model (Python `datetime.date`) -/

/-- Gregorian leap-year test, as in `calendar.isleap`. -/
def isLeap (y : Nat) : Bool := y % 4 == 0 && (y % 100 != 0 || y % 400 == 0)

/-- Number of days in month `m` (1-12) of year `y`. -/
def daysInMonth (y m : Nat) : Nat :=
  if m = 2 then (if isLeap y then 29 else 28)
  else if m = 4 ∨ m = 6 ∨ m = 9 ∨ m = 11 then 30
  else 31

/-- Days in year `y` strictly before month `m`. -/
def daysBeforeMonth (y m : Nat) : Nat :=
  (List.range' 1 (m - 1)).foldl (fun acc mm => acc + daysInMonth y mm) 0

/-- Proleptic-Gregorian ordinal of the date `y-m-d`, as
`datetime.date(y, m, d).toordinal()` (0001-01-01 ↦ 1). -/
def dateToOrdinal (y m d : Nat) : Nat :=
  365 * (y - 1) + (y - 1) / 4 - (y - 1) / 100 + (y - 1) / 400 + daysBeforeMonth y m + d

/-- Weekday of an ordinal, Monday = 0 … Sunday = 6 (Python `date.weekday()`). -/
def weekday (ord : Nat) : Nat := (ord + 6) % 7

/-! ## String parsing (Python `datetime.strptime`)

`strptime(s, "%Y-%m-%d")` matches `%Y` against exactly four digits, `%m`
against one or two digits valued 1-12, `%d` against one or two digits valued
1-31, with literal dashes in between and no unconsumed input, and then
rejects a day that does not exist in the given month/year (and year 0).
`strptime(s, "%H:%M")` matches `%H` against one or two digits valued 0-23 and
`%M` against one or two digits valued 0-59 separated by a literal colon.
The parsers below work on `String.data` character lists so that they are
structurally recursive (kernel-evaluable). -/

/-- Split a character list at every occurrence of the character `sep`. -/
def splitOnChar (sep : Char) : List Char → List (List Char)
  | [] => [[]]
  | c :: cs =>
    let r := splitOnChar sep cs
    if c = sep then [] :: r
    else
      match r with
      | [] => [[c]]
      | g :: gs => (c :: g) :: gs

/-- Digit-string test over a character list. -/
def allDigits (l : List Char) : Bool := !l.isEmpty && l.all (·.isDigit)

/-- Numeric value of a digit-character list (most significant first). -/
def digitsToNat (l : List Char) : Nat :=
  l.foldl (fun n c => n * 10 + (c.toNat - 48)) 0

/-- Parse `"YYYY-MM-DD"` per `strptime(date, "%Y-%m-%d")`, returning the date
ordinal.  Returns `none` exactly when the Python call raises `ValueError`. -/
def parseDate (s : String) : Option Nat :=
  match splitOnChar '-' s.data with
  | [ys, ms, ds] =>
    if allDigits ys ∧ allDigits ms ∧ allDigits ds then
      let y := digitsToNat ys
      let m := digitsToNat ms
      let d := digitsToNat ds
      if ys.length = 4 ∧ 1 ≤ y ∧ ms.length ≤ 2 ∧ 1 ≤ m ∧ m ≤ 12 ∧
          ds.length ≤ 2 ∧ 1 ≤ d ∧ d ≤ daysInMonth y m then
        some (dateToOrdinal y m d)
      else none
    else none
  | _ => none

/-- Parse `"HH:MM"` per `strptime(time, "%H:%M")`, returning (hour, minute).
Returns `none` exactly when the Python call raises `ValueError`. -/
def parseTime (s : String) : Option (Nat × Nat) :=
  match splitOnChar ':' s.data with
  | [hs, ms] =>
    if allDigits hs ∧ allDigits ms then
      let h := digitsToNat hs
      let m := digitsToNat ms
      if hs.length ≤ 2 ∧ h ≤ 23 ∧ ms.length ≤ 2 ∧ m ≤ 59 then some (h, m)
      else none
    else none
  | _ => none

/-! ## Slot generator (`SlotGenerator`) -/

/-- Constructor arguments of `SlotGenerator.__init__`, with the defaults used
by the source (`business_days=None` becomes Mon-Sat = `[0,1,2,3,4,5]`). -/
structure SlotConfig where
  business_hours_start : Nat := 8
  business_hours_end : Nat := 20
  business_days : List Nat := [0, 1, 2, 3, 4, 5]
  booking_advance_days : Nat := 30
  default_slot_duration : Nat := 30
deriving Repr, DecidableEq

/-- The `TimeSlot` model (`src/src/models/appointment.py`), with the date and
time carried numerically (see the header comment on injectivity). -/
structure TimeSlot where
  date : Nat
  hour : Nat
  minute : Nat
  duration_minutes : Nat
  is_available : Bool
deriving Repr, DecidableEq

/-- Python `duration_minutes or self.default_slot_duration`: `None` and the
falsy value `0` both select the configured default. -/
def durationOf (cfg : SlotConfig) (duration_minutes : Option Nat) : Nat :=
  match duration_minutes with
  | some d => if d = 0 then cfg.default_slot_duration else d
  | none => cfg.default_slot_duration

/-- First `continue` of the inner loop of `generate_slots`: the slot interval
must not run past closing time (reject when the end hour exceeds the closing
hour, or equals it with nonzero leftover minutes). -/
def slot_end_ok (cfg : SlotConfig) (duration hour minute : Nat) : Bool :=
  let slot_end_hour := hour + (minute + duration) / 60
  let slot_end_minute := (minute + duration) % 60
  !(decide (slot_end_hour > cfg.business_hours_end ∨
      (slot_end_hour = cfg.business_hours_end ∧ slot_end_minute > 0)))

/-- Second `continue` of the inner loop of `generate_slots`: on the current
day (day_offset = 0) the slot must start strictly after now + 1 hour
(`slot_datetime <= now + timedelta(hours=1)` skips the slot). -/
def buffer_ok (nowSec day_offset hour minute : Nat) : Bool :=
  decide (day_offset = 0 → (hour * 60 + minute) * 60 > nowSec + 3600)

/-- Body of the `for minute in [0, 30]` loop of `generate_slots` for one hour. -/
def slots_for_hour (cfg : SlotConfig) (duration nowSec : Nat)
    (booked : List (Nat × Nat × Nat)) (current_date day_offset hour : Nat) :
    List TimeSlot :=
  (([0, 30] : List Nat).filter
      (fun minute => slot_end_ok cfg duration hour minute &&
        buffer_ok nowSec day_offset hour minute)).map
    (fun minute =>
      { date := current_date, hour := hour, minute := minute,
        duration_minutes := duration,
        is_available := decide ((current_date, hour, minute) ∉ booked) })

/-- Body of the `for hour in range(start, end)` loop of `generate_slots` for
one business day. -/
def slots_for_day (cfg : SlotConfig) (duration nowSec : Nat)
    (booked : List (Nat × Nat × Nat)) (todayOrd day_offset : Nat) :
    List TimeSlot :=
  (List.range' cfg.business_hours_start
      (cfg.business_hours_end - cfg.business_hours_start)).flatMap
    (slots_for_hour cfg duration nowSec booked (todayOrd + day_offset) day_offset)

/-- Embedding of `SlotGenerator.generate_slots`: enumerate `day_offset` over the booking
horizon, skip non-business weekdays, and emit the surviving 30-minute-cadence
candidates of each day.  `todayOrd`/`nowSec` encode `datetime.now(tz)`. -/
def generate_slots (cfg : SlotConfig) (todayOrd nowSec : Nat)
    (duration_minutes : Option Nat) (booked : List (Nat × Nat × Nat)) :
    List TimeSlot :=
  ((List.range cfg.booking_advance_days).filter
      (fun day_offset => decide (weekday (todayOrd + day_offset) ∈ cfg.business_days))).flatMap
    (slots_for_day cfg (durationOf cfg duration_minutes) nowSec booked todayOrd)

/-- Embedding of `SlotGenerator.get_available_slots`.  Python truthiness: `if limit:` treats
a supplied limit of `0` like no limit at all. -/
def get_available_slots (cfg : SlotConfig) (todayOrd nowSec : Nat)
    (duration_minutes : Option Nat) (booked : List (Nat × Nat × Nat))
    (limit : Option Nat) : List TimeSlot :=
  let available := (generate_slots cfg todayOrd nowSec duration_minutes booked).filter
    (fun s => s.is_available)
  match limit with
  | some l => if l ≠ 0 then available.take l else available
  | none => available

/-- Embedding of `SlotGenerator.validate_slot`.  The returned pair is (is_valid, message);
all six rejection branches of the source are reproduced in order.  The two
messages that interpolate configuration numbers are built with `toString`. -/
def validate_slot (cfg : SlotConfig) (date time : String) (todayOrd nowSec : Nat) :
    Bool × String :=
  match parseDate date with
  | none => (false, "Invalid date format. Please use YYYY-MM-DD.")
  | some dateOrd =>
    match parseTime time with
    | none => (false, "Invalid time format. Please use HH:MM.")
    | some (h, m) =>
      if h < cfg.business_hours_start ∨ cfg.business_hours_end ≤ h then
        (false, "That time is outside business hours (" ++
          toString cfg.business_hours_start ++ ":00 - " ++
          toString cfg.business_hours_end ++ ":00).")
      else if weekday dateOrd ∉ cfg.business_days then
        (false, "That date is not a business day. We\x27re open Monday through Saturday.")
      else if dateOrd * 86400 + (h * 60 + m) * 60 ≤ todayOrd * 86400 + nowSec then
        (false, "That time is in the past. Please choose a future time.")
      else if todayOrd + cfg.booking_advance_days < dateOrd then
        (false, "That\x27s too far in advance. You can book up to " ++
          toString cfg.booking_advance_days ++ " days ahead.")
      else (true, "")

/-! ## Appointment store (`SupabaseService`)

The remote datastore is embedded as a pure in-memory value: the appointments
table is a list (insertion-ordered), users a list keyed by phone number, and
row ids are allocated from a counter.  `created_at` / `updated_at` /
`last_interaction` timestamps and the free-form preference map are not
modelled (no claim mentions them).  Store calls never fail in this embedding;
the claims under verification concern the code paths in which the datastore
round-trips succeed. -/

/-- The `AppointmentStatus` enum. -/
inductive AppointmentStatus where
  | scheduled
  | cancelled
  | completed
  | no_show
deriving Repr, DecidableEq

/-- Python `AppointmentStatus(status)` string-to-enum conversion; `none` is the
`ValueError` case. -/
def statusOfString (s : String) : Option AppointmentStatus :=
  if s == "scheduled" then some .scheduled
  else if s == "cancelled" then some .cancelled
  else if s == "completed" then some .completed
  else if s == "no_show" then some .no_show
  else none

/-- The `Appointment` model (`src/src/models/appointment.py`); dates and times
are kept as the raw strings the store receives. -/
structure Appointment where
  id : Option Nat := none
  user_phone : String
  user_name : Option String := none
  date : String
  time : String
  duration_minutes : Nat := 30
  purpose : Option String := none
  status : AppointmentStatus := .scheduled
  notes : Option String := none
deriving Repr, DecidableEq

/-- The `User` model fields the tool layer reads/writes. -/
structure UserRec where
  phone_number : String
  name : Option String := none
  total_appointments : Nat := 0
deriving Repr, DecidableEq

/-- In-memory image of the datastore tables. -/
structure Store where
  appointments : List Appointment := []
  users : List UserRec := []
  nextId : Nat := 0
deriving Repr, DecidableEq

/-- Python truthiness of an optional string: `None` and `""` are falsy. -/
def pyTruthy (o : Option String) : Bool :=
  match o with
  | some s => !s.isEmpty
  | none => false

/-- Python `a or b` on optional strings. -/
def pyOr (a b : Option String) : Option String := if pyTruthy a then a else b

/-- Embedding of `SupabaseService.get_user_by_phone`. -/
def get_user_by_phone (st : Store) (phone : String) : Option UserRec :=
  st.users.find? (fun u => u.phone_number == phone)

/-- Embedding of `SupabaseService.create_or_update_user` (upsert keyed by phone; the name is
only written when truthy). -/
def create_or_update_user (st : Store) (phone : String) (name : Option String) :
    UserRec × Store :=
  match get_user_by_phone st phone with
  | some u =>
    let u1 := if pyTruthy name then { u with name := name } else u
    (u1, { st with users := st.users.map (fun v => if v.phone_number == phone then u1 else v) })
  | none =>
    let u : UserRec := { phone_number := phone, name := name, total_appointments := 0 }
    (u, { st with users := st.users ++ [u] })

/-- Structural lexicographic strict order on character lists (byte order, as
the datastore compares text). -/
def charListLt : List Char → List Char → Bool
  | [], [] => false
  | [], _ :: _ => true
  | _ :: _, [] => false
  | a :: as, b :: bs =>
    if a.toNat < b.toNat then true
    else if a.toNat = b.toNat then charListLt as bs
    else false

/-- String strict order via `charListLt`. -/
def strLt (a b : String) : Bool := charListLt a.data b.data

/-- Datastore result order of `get_appointments_by_phone`:
`order("date").order("time")` ascending. -/
def aptLeB (a b : Appointment) : Bool :=
  strLt a.date b.date || (a.date == b.date && !(strLt b.time a.time))

/-- Propositional form of `aptLeB` for `List.insertionSort`. -/
def aptLe (a b : Appointment) : Prop := aptLeB a b = true

instance : DecidableRel aptLe := fun a b => inferInstanceAs (Decidable (aptLeB a b = true))

/-- Embedding of `SupabaseService.get_appointments_by_phone`: filter by phone, optional
status, and (when `include_past` is false) `date >= today`; results ordered by
date then time ascending.  `todayStr` is `utcnow().strftime("%Y-%m-%d")`. -/
def get_appointments_by_phone (st : Store) (phone : String)
    (status : Option AppointmentStatus) (include_past : Bool) (todayStr : String) :
    List Appointment :=
  let rows := st.appointments.filter (fun a =>
    a.user_phone == phone &&
    (match status with
     | some fs => a.status == fs
     | none => true) &&
    (include_past || !(strLt a.date todayStr)))
  List.insertionSort aptLe rows

/-- Embedding of `SupabaseService.get_appointment_by_id`. -/
def get_appointment_by_id (st : Store) (id : Nat) : Option Appointment :=
  st.appointments.find? (fun a => a.id == some id)

/-- Embedding of `SupabaseService.check_slot_available`: true iff no `scheduled` appointment
occupies the exact (date, time) pair. -/
def check_slot_available (st : Store) (date time : String) : Bool :=
  !(st.appointments.any (fun a =>
    a.date == date && a.time == time && a.status == AppointmentStatus.scheduled))

/-- Embedding of `SupabaseService._increment_user_appointments`. -/
def increment_user_appointments (st : Store) (phone : String) : Store :=
  match get_user_by_phone st phone with
  | some u =>
    { st with users := st.users.map (fun v =>
        if v.phone_number == phone then { v with total_appointments := u.total_appointments + 1 } else v) }
  | none => st

/-- Embedding of `SupabaseService.create_appointment`: re-checks availability immediately
before insert and raises `ValueError` (here: `Except.error`) on a conflict; on
success inserts the row, assigns the id, and bumps the user counter. -/
def create_appointment (st : Store) (apt : Appointment) :
    Except String (Appointment × Store) :=
  if check_slot_available st apt.date apt.time then
    let created := { apt with id := some st.nextId }
    let st1 := { st with
      appointments := st.appointments ++ [created]
      nextId := st.nextId + 1 }
    Except.ok (created, increment_user_appointments st1 apt.user_phone)
  else
    Except.error ("Slot " ++ apt.date ++ " at " ++ apt.time ++ " is already booked")

/-- Partial-update payload of `SupabaseService.update_appointment`. -/
structure AppointmentUpdates where
  date : Option String := none
  time : Option String := none
  status : Option AppointmentStatus := none
deriving Repr, DecidableEq

/-- Apply an update payload to a row. -/
def applyUpdates (u : AppointmentUpdates) (a : Appointment) : Appointment :=
  { a with
    date := u.date.getD a.date
    time := u.time.getD a.time
    status := u.status.getD a.status }

/-- Embedding of `SupabaseService.update_appointment`: update the row with the given id and
return it, or `none` when no row matches. -/
def update_appointment (st : Store) (id : Nat) (u : AppointmentUpdates) :
    Option Appointment × Store :=
  match get_appointment_by_id st id with
  | none => (none, st)
  | some a =>
    (some (applyUpdates u a),
     { st with appointments := st.appointments.map (fun b =>
         if b.id == some id then applyUpdates u b else b) })

/-- Embedding of `SupabaseService.cancel_appointment`: status → cancelled. -/
def cancel_appointment_db (st : Store) (id : Nat) : Option Appointment × Store :=
  update_appointment st id { status := some .cancelled }

/-- Embedding of `SupabaseService.modify_appointment`: fetch the row, check the (possibly
partially changed) target slot for availability when a change is requested,
then write the truthy new fields.  `ValueError`s become `Except.error`. -/
def modify_appointment_db (st : Store) (id : Nat) (new_date new_time : Option String) :
    Except String (Option Appointment × Store) :=
  match get_appointment_by_id st id with
  | none => Except.error ("Appointment " ++ toString id ++ " not found")
  | some current =>
    let target_date := (pyOr new_date (some current.date)).getD current.date
    let target_time := (pyOr new_time (some current.time)).getD current.time
    if pyTruthy new_date || pyTruthy new_time then
      if check_slot_available st target_date target_time then
        Except.ok (update_appointment st id
          { date := if pyTruthy new_date then new_date else none,
            time := if pyTruthy new_time then new_time else none })
      else
        Except.error ("Slot " ++ target_date ++ " at " ++ target_time ++ " is not available")
    else
      Except.ok (update_appointment st id
        { date := if pyTruthy new_date then new_date else none,
          time := if pyTruthy new_time then new_time else none })

/-! ## Appointment tools (`AppointmentTools`)

Each tool is embedded as a pure transition function
`inputs → ToolResult × ConversationState × Store`: the returned state/store
are the session state and datastore after the call.  The `self.state is None`
guard (conversation not initialised) is outside this embedding: the
orchestrator always calls `init_conversation` first, and every claim under
verification concerns an initialised conversation.  Human-friendly re-rendering
of already-validated date/time strings in spoken confirmations
(`strftime("%A, %B %d")`, 12-hour clock) is abstracted as the raw validated
string: no claim constrains those renderings. -/

/-- Session-state entry appended by `book_appointment`. -/
structure BookedEntry where
  id : Option Nat
  date : String
  time : String
  purpose : Option String
deriving Repr, DecidableEq

/-- Session-state entry appended by `modify_appointment`. -/
structure ModifiedEntry where
  id : Option Nat
  old_date : String
  old_time : String
  new_date : String
  new_time : String
deriving Repr, DecidableEq

/-- Session-state entry appended by `cancel_appointment`. -/
structure CancelledEntry where
  id : Option Nat
  date : String
  time : String
deriving Repr, DecidableEq

/-- Structured `data` payloads carried by `ToolResult.data`. -/
inductive ToolData where
  | noData
  | userData (u : UserRec) (is_returning : Bool)
  | slotsData (l : List TimeSlot)
  | appointmentData (a : Appointment)
  | appointmentsData (l : List Appointment)
  | summaryData (reason : String) (booked : List BookedEntry)
      (modified : List ModifiedEntry) (cancelled : List CancelledEntry)
      (user_identified : Bool)
deriving Repr, DecidableEq

/-- The `ToolResult` dataclass. -/
structure ToolResult where
  success : Bool
  data : ToolData := .noData
  message : String := ""
  verbal_response : String := ""
  error : Option String := none
deriving Repr, DecidableEq

/-- The `ConversationState` dataclass (the `user` object and the free-form
`mentioned_preferences` map are carried verbatim / omitted: no claim reads
them beyond identification). -/
structure ConversationState where
  session_id : String
  user_phone : Option String := none
  user_name : Option String := none
  user : Option UserRec := none
  is_identified : Bool := false
  appointments_booked : List BookedEntry := []
  appointments_modified : List ModifiedEntry := []
  appointments_cancelled : List CancelledEntry := []
  user_timezone : String := "UTC"
  should_end : Bool := false
deriving Repr, DecidableEq

/-- Embedding of `AppointmentTools.book_appointment`.  `todayOrd`/`nowSec` encode the
`datetime.now(tz)` used by `validate_slot` for the session timezone. -/
def book_appointment (cfg : SlotConfig) (todayOrd nowSec : Nat)
    (st : ConversationState) (db : Store)
    (date time : String) (purpose : Option String) (duration_minutes : Nat)
    (user_name : Option String) : ToolResult × ConversationState × Store :=
  if !st.is_identified then
    ({ success := false, error := some "User not identified",
       verbal_response := "Before I can book an appointment, I\x27ll need your phone number. What\x27s your phone number?" },
     st, db)
  else
    let v := validate_slot cfg date time todayOrd nowSec
    if !v.1 then
      ({ success := false, error := some v.2, verbal_response := v.2 }, st, db)
    else if !check_slot_available db date time then
      ({ success := false, error := some "Slot already booked",
         verbal_response := "I\x27m sorry, that slot was just taken. Would you like me to find another available time?" },
       st, db)
    else
      let stdb :=
        if pyTruthy user_name && !pyTruthy st.user_name then
          ({ st with user_name := user_name },
           (create_or_update_user db (st.user_phone.getD "") user_name).2)
        else (st, db)
      let st1 := stdb.1
      let db1 := stdb.2
      let apt : Appointment :=
        { user_phone := st1.user_phone.getD "",
          user_name := pyOr st1.user_name user_name,
          date := date, time := time,
          duration_minutes := duration_minutes, purpose := purpose,
          status := .scheduled }
      match create_appointment db1 apt with
      | .error e =>
        ({ success := false, error := some e, verbal_response := e }, st1, db1)
      | .ok (created, db2) =>
        let st2 := { st1 with appointments_booked := st1.appointments_booked ++
          [{ id := created.id, date := date, time := time, purpose := purpose }] }
        let purpose_text := if pyTruthy purpose then " for " ++ purpose.getD "" else ""
        ({ success := true, data := .appointmentData created,
           message := "Appointment booked: " ++ toString (created.id.getD 0),
           verbal_response := "I\x27ve booked your appointment for " ++ date ++
             " at " ++ time ++ purpose_text ++
             ". Is there anything else I can help you with?" },
         st2, db2)

/-- Embedding of `Appointment.to_verbal_summary`. -/
def to_verbal_summary (a : Appointment) : String :=
  let status_text :=
    if a.status == AppointmentStatus.cancelled then " (cancelled)"
    else if a.status == AppointmentStatus.completed then " (completed)"
    else ""
  let purpose_text := if pyTruthy a.purpose then " for " ++ a.purpose.getD "" else ""
  "Appointment on " ++ a.date ++ " at " ++ a.time ++ purpose_text ++ status_text

/-- Verbal enumeration built by `retrieve_appointments` over the `scheduled`
subset: one appointment verbatim, up to three plus an "And N more." tail. -/
def retrieve_verbal (appointments : List Appointment) : String :=
  let upcoming := appointments.filter (fun a => a.status == AppointmentStatus.scheduled)
  if upcoming.length = 1 then
    match upcoming with
    | a :: _ => "You have one appointment: " ++ to_verbal_summary a ++ "."
    | [] => "You don\x27t have any upcoming appointments."
  else if upcoming.length > 1 then
    let head3 := (upcoming.take 3).foldl
      (fun acc a => acc ++ to_verbal_summary a ++ ". ")
      ("You have " ++ toString upcoming.length ++ " appointments. ")
    if upcoming.length > 3 then
      head3 ++ "And " ++ toString (upcoming.length - 3) ++ " more."
    else head3
  else "You don\x27t have any upcoming appointments."

/-- Tail of `AppointmentTools.retrieve_appointments` once the status filter
has parsed: fetch, branch on emptiness, and build the spoken summary. -/
def retrieve_with (st : ConversationState) (db : Store)
    (fs : Option AppointmentStatus) (include_past : Bool) (todayStr : String) :
    ToolResult × ConversationState × Store :=
  let appointments := get_appointments_by_phone db (st.user_phone.getD "") fs
    include_past todayStr
  if appointments.isEmpty then
    ({ success := true, data := .appointmentsData [],
       message := "No appointments found",
       verbal_response := "You don\x27t have any appointments scheduled. Would you like to book one?" },
     st, db)
  else
    ({ success := true, data := .appointmentsData appointments,
       message := "Found " ++ toString appointments.length ++ " appointments",
       verbal_response := retrieve_verbal appointments },
     st, db)

/-- Embedding of `AppointmentTools.retrieve_appointments`.  `todayStr` feeds
the `include_past` date filter of the store accessor. -/
def retrieve_appointments (st : ConversationState) (db : Store)
    (include_past : Bool) (status : Option String) (todayStr : String) :
    ToolResult × ConversationState × Store :=
  if !st.is_identified then
    ({ success := false, error := some "User not identified",
       verbal_response := "I\x27ll need your phone number to look up your appointments. What\x27s your phone number?" },
     st, db)
  else
    let statusStr := status.getD ""
    if pyTruthy status && statusStr != "all" then
      match statusOfString statusStr with
      | none =>
        ({ success := false,
           error := some ("\x27" ++ statusStr ++ "\x27 is not a valid AppointmentStatus"),
           verbal_response := "I had trouble retrieving your appointments. Please try again." },
         st, db)
      | some fs => retrieve_with st db (some fs) include_past todayStr
    else retrieve_with st db none include_past todayStr

/-- Resolution of an appointment by exact (date, time) among the calling
user\x27s own `scheduled` appointments, shared by `cancel_appointment` and
`modify_appointment` (`get_appointments_by_phone(..., status=SCHEDULED)` then
first match). -/
def find_own_scheduled (db : Store) (phone date time : String) : Option Appointment :=
  (get_appointments_by_phone db phone (some .scheduled) true "").find?
    (fun a => a.date == date && a.time == time)

/-- Embedding of `AppointmentTools.cancel_appointment`. -/
def cancel_appointment (st : ConversationState) (db : Store)
    (appointment_id : Option Nat) (date time : Option String) :
    ToolResult × ConversationState × Store :=
  if !st.is_identified then
    ({ success := false, error := some "User not identified",
       verbal_response := "I need to verify your phone number before I can cancel appointments." },
     st, db)
  else
    let resolved : Except ToolResult Appointment :=
      match appointment_id with
      | some id =>
        match get_appointment_by_id db id with
        | some apt =>
          if st.user_phone == some apt.user_phone then .ok apt
          else .error {
              success := false
              error := some "Appointment not found"
              verbal_response := "I couldn\x27t find that appointment. Could you tell me the date and time?" }
        | none => .error {
            success := false
            error := some "Appointment not found"
            verbal_response := "I couldn\x27t find that appointment. Could you tell me the date and time?" }
      | none =>
        if pyTruthy date && pyTruthy time then
          match find_own_scheduled db (st.user_phone.getD "") (date.getD "") (time.getD "") with
          | some apt => .ok apt
          | none => .error {
              success := false
              error := some "Appointment not found"
              verbal_response := "I couldn\x27t find an appointment on " ++ date.getD "" ++
                " at " ++ time.getD "" ++ ". Would you like me to look up your appointments?" }
        else .error {
            success := false
            error := some "No appointment specified"
            verbal_response := "Which appointment would you like to cancel? Please tell me the date and time." }
    match resolved with
    | .error r => (r, st, db)
    | .ok apt =>
      let cdb :=
        match apt.id with
        | some i => cancel_appointment_db db i
        | none => (none, db)
      match cdb.1 with
      | none =>
        ({ success := false,
           error := some "\x27NoneType\x27 object has no attribute \x27model_dump\x27",
           verbal_response := "I had trouble cancelling that appointment. Please try again." },
         st, cdb.2)
      | some cancelled =>
        let st1 := { st with appointments_cancelled := st.appointments_cancelled ++
          [{ id := apt.id, date := apt.date, time := apt.time }] }
        ({ success := true, data := .appointmentData cancelled,
           message := "Appointment " ++ toString (apt.id.getD 0) ++ " cancelled",
           verbal_response := "I\x27ve cancelled your appointment on " ++ apt.date ++
             " at " ++ apt.time ++ ". Is there anything else I can help you with?" },
         st1, cdb.2)

/-- Embedding of `AppointmentTools.modify_appointment`. -/
def modify_appointment (cfg : SlotConfig) (todayOrd nowSec : Nat)
    (st : ConversationState) (db : Store)
    (appointment_id : Option Nat) (current_date current_time new_date new_time : Option String) :
    ToolResult × ConversationState × Store :=
  if !st.is_identified then
    ({ success := false, error := some "User not identified",
       verbal_response := "I need your phone number before I can modify appointments." },
     st, db)
  else if !pyTruthy new_date && !pyTruthy new_time then
    ({ success := false, error := some "No changes specified",
       verbal_response := "What would you like to change the appointment to? Please tell me the new date or time." },
     st, db)
  else
    let resolved : Except ToolResult Appointment :=
      match appointment_id with
      | some id =>
        match get_appointment_by_id db id with
        | some apt =>
          if st.user_phone == some apt.user_phone then .ok apt
          else .error {
              success := false
              error := some "Appointment not found"
              verbal_response := "I couldn\x27t find that appointment." }
        | none => .error {
            success := false
            error := some "Appointment not found"
            verbal_response := "I couldn\x27t find that appointment." }
      | none =>
        if pyTruthy current_date && pyTruthy current_time then
          match find_own_scheduled db (st.user_phone.getD "") (current_date.getD "") (current_time.getD "") with
          | some apt => .ok apt
          | none => .error {
              success := false
              error := some "Appointment not found"
              verbal_response := "I couldn\x27t find that appointment. Would you like me to look up your appointments?" }
        else .error {
            success := false
            error := some "No appointment specified"
            verbal_response := "Which appointment would you like to modify?" }
    match resolved with
    | .error r => (r, st, db)
    | .ok apt =>
      let target_date := (pyOr new_date (some apt.date)).getD apt.date
      let target_time := (pyOr new_time (some apt.time)).getD apt.time
      let v := validate_slot cfg target_date target_time todayOrd nowSec
      if !v.1 then
        ({ success := false, error := some v.2, verbal_response := v.2 }, st, db)
      else
        let outcome :=
          match apt.id with
          | some i => modify_appointment_db db i new_date new_time
          | none => Except.error "Appointment None not found"
        match outcome with
        | .error e =>
          ({ success := false, error := some e, verbal_response := e }, st, db)
        | .ok (none, db1) =>
          ({ success := false,
             error := some "\x27NoneType\x27 object has no attribute \x27model_dump\x27",
             verbal_response := "I had trouble modifying that appointment. Please try again." },
           st, db1)
        | .ok (some modified, db1) =>
          let st1 := { st with appointments_modified := st.appointments_modified ++
            [{ id := apt.id, old_date := apt.date, old_time := apt.time,
               new_date := target_date, new_time := target_time }] }
          ({ success := true, data := .appointmentData modified,
             message := "Appointment " ++ toString (apt.id.getD 0) ++ " modified",
             verbal_response := "I\x27ve updated your appointment to " ++ target_date ++
               " at " ++ target_time ++ ". Is there anything else?" },
           st1, db1)

/-- Embedding of `AppointmentTools.end_conversation`: set the termination flag, bundle the
session lists into the summary payload, and pick the farewell by the fixed
priority booked > modified > cancelled > generic (`list[-1]` = last entry). -/
def end_conversation (st : ConversationState) (reason : String) :
    ToolResult × ConversationState :=
  let st1 := { st with should_end := true }
  let verbal :=
    match st.appointments_booked.getLast? with
    | some apt =>
      "Great! Your appointment is confirmed for " ++ apt.date ++ " at " ++
        apt.time ++ ". Have a wonderful day!"
    | none =>
      match st.appointments_modified.getLast? with
      | some apt =>
        "Your appointment has been updated to " ++ apt.new_date ++ " at " ++
          apt.new_time ++ ". Take care!"
      | none =>
        if !st.appointments_cancelled.isEmpty then
          "Your appointment has been cancelled. Feel free to reach out when you\x27d like to schedule again. Goodbye!"
        else "Thank you for calling. Have a great day!"
  ({ success := true,
     data := .summaryData reason st.appointments_booked st.appointments_modified
       st.appointments_cancelled st.is_identified,
     message := "Conversation ended", verbal_response := verbal },
   st1)

/-! ## LLM provider fallback (`LLMService.generate_response`)

Each provider call is abstracted by its outcome (`Except.ok` a response or
`Except.error` the exception text).  The second component of the result
records, in order, the providers actually attempted. -/

/-- Provider identifiers. -/
inductive ProviderType where
  | gemini
  | groq
deriving Repr, DecidableEq

/-- Embedding of `LLMService.generate_response`: try Gemini; on any failure try Groq; if
both fail raise a `RuntimeError` aggregating both messages. -/
def generate_response {α : Type} (primary secondary : Except String α) :
    Except String α × List ProviderType :=
  match primary with
  | .ok r => (.ok r, [.gemini])
  | .error gemini_error =>
    match secondary with
    | .ok r => (.ok r, [.gemini, .groq])
    | .error groq_error =>
      (.error ("All LLM providers failed. Gemini: " ++ gemini_error ++
        ", Groq: " ++ groq_error), [.gemini, .groq])

/-! ## Auxiliary specification-side definitions -/

/-- Generation order asserted by claim C5: days ascending, then hours
ascending, then the intra-hour offsets ascending. -/
def slotBefore (a b : TimeSlot) : Prop :=
  a.date < b.date ∨ (a.date = b.date ∧
    (a.hour < b.hour ∨ (a.hour = b.hour ∧ a.minute < b.minute)))

/-- Configuration with a one-day horizon and a single business hour, used for
concrete instances (ordinal day 8 is a Monday). -/
def cfgC4 : SlotConfig := { business_hours_end := 9, booking_advance_days := 1 }

/-- The system-wide uniqueness invariant: no two rows of the appointments
table are both `scheduled` for the same (date, time) pair. -/
def AtMostOneScheduled (db : Store) : Prop :=
  db.appointments.Pairwise (fun a b =>
    ¬(a.status = .scheduled ∧ b.status = .scheduled ∧ a.date = b.date ∧ a.time = b.time))

/-- Structural test that `needle` occurs at the start of `hay`. -/
def headMatches : List Char → List Char → Bool
  | [], _ => true
  | _ :: _, [] => false
  | a :: as, b :: bs => a == b && headMatches as bs

/-- Structural substring test on character lists. -/
def containsSub (needle : List Char) : List Char → Bool
  | [] => needle.isEmpty
  | c :: cs => headMatches needle (c :: cs) || containsSub needle cs

/-- The spoken response mentions the phrase "phone number". -/
def mentionsPhoneNumber (s : String) : Bool :=
  containsSub ("phone number".data) s.data

/-- Session state used by the C8 witness: exactly one booking recorded. -/
def stC8 : ConversationState :=
  { session_id := "s1"
    is_identified := true
    appointments_booked := [{ id := some 0, date := "2025-03-10", time := "14:00", purpose := none }] }

/-- Unidentified session state used by the C6 witness. -/
def stC6 : ConversationState := { session_id := "s6" }

/-- Scheduled appointment occupying 2025-03-10 14:00, used by the C1 witness. -/
def aptC1 : Appointment :=
  { id := some 1, user_phone := "+15551234567", date := "2025-03-10", time := "14:00" }

/-- Store with the 2025-03-10 14:00 slot occupied, used by the C1 witness. -/
def dbC1 : Store := { appointments := [aptC1], users := [], nextId := 2 }

/-- Identified session state used by the C1 witness. -/
def stC1 : ConversationState :=
  { session_id := "s2", user_phone := some "+15551234567", is_identified := true }

/-- Appointment owned by a different phone number, used by the C7 witness. -/
def aptC7 : Appointment :=
  { id := some 4, user_phone := "+19998887777", date := "2025-03-10", time := "14:00" }

/-- Store holding only the foreign-owned appointment, used by the C7 witness. -/
def dbC7 : Store := { appointments := [aptC7], users := [], nextId := 5 }

/-- Identified session state whose phone differs from `aptC7`, used by the C7
witness. -/
def stC7 : ConversationState :=
  { session_id := "s7", user_phone := some "+15551234567", is_identified := true }

/-! ## Lemmas about the slot generator -/

/-- Characterisation of membership in `generate_slots`: a slot is produced
exactly for the loop indices that survive the weekday filter, the
business-hours range, and both `continue` conditions. -/
theorem mem_generate_slots {cfg : SlotConfig} {todayOrd nowSec : Nat}
    {dm : Option Nat} {booked : List (Nat × Nat × Nat)} {s : TimeSlot} :
    s ∈ generate_slots cfg todayOrd nowSec dm booked ↔
      ∃ off hour minute,
        off < cfg.booking_advance_days ∧
        weekday (todayOrd + off) ∈ cfg.business_days ∧
        cfg.business_hours_start ≤ hour ∧ hour < cfg.business_hours_end ∧
        (minute = 0 ∨ minute = 30) ∧
        slot_end_ok cfg (durationOf cfg dm) hour minute = true ∧
        buffer_ok nowSec off hour minute = true ∧
        s = { date := todayOrd + off, hour := hour, minute := minute,
              duration_minutes := durationOf cfg dm,
              is_available := decide ((todayOrd + off, hour, minute) ∉ booked) } := by
  simp only [generate_slots, slots_for_day, slots_for_hour, List.mem_flatMap,
    List.mem_filter, List.mem_range, List.mem_range'_1, List.mem_map,
    decide_eq_true_eq, Bool.and_eq_true, List.mem_cons,
    List.not_mem_nil, or_false]
  constructor
  · rintro ⟨off, ⟨hoff, hwd⟩, hour, ⟨hh1, hh2⟩, minute, ⟨hm, hend, hbuf⟩, rfl⟩
    exact ⟨off, hour, minute, hoff, hwd, hh1, by omega, hm, hend, hbuf, rfl⟩
  · rintro ⟨off, hour, minute, hoff, hwd, hh1, hh2, hm, hend, hbuf, rfl⟩
    exact ⟨off, ⟨hoff, hwd⟩, hour, ⟨hh1, by omega⟩, minute, ⟨hm, hend, hbuf⟩, rfl⟩

/-- C2.  Every slot produced by `generate_slots` falls on a configured
business weekday, starts at or after the opening hour, starts before the
closing hour, and fits inside the [open, close] window — a candidate being
rejected exactly when its end hour exceeds the closing hour or equals it with
nonzero leftover minutes (second conjunct: every non-rejected candidate is
produced) — and every slot dated on the current day starts strictly more than
one hour after "now". -/
theorem C2_generated_slot_wellformed (cfg : SlotConfig) (todayOrd nowSec : Nat)
    (dm : Option Nat) (booked : List (Nat × Nat × Nat)) :
    (∀ s ∈ generate_slots cfg todayOrd nowSec dm booked,
      weekday s.date ∈ cfg.business_days ∧
      cfg.business_hours_start ≤ s.hour ∧ s.hour < cfg.business_hours_end ∧
      cfg.business_hours_start * 60 ≤ s.hour * 60 + s.minute ∧
      s.hour * 60 + s.minute + s.duration_minutes ≤ cfg.business_hours_end * 60 ∧
      ¬(s.hour + (s.minute + s.duration_minutes) / 60 > cfg.business_hours_end ∨
        (s.hour + (s.minute + s.duration_minutes) / 60 = cfg.business_hours_end ∧
          (s.minute + s.duration_minutes) % 60 > 0)) ∧
      (s.date = todayOrd → (s.hour * 60 + s.minute) * 60 > nowSec + 3600)) ∧
    (∀ off hour minute, off < cfg.booking_advance_days →
      weekday (todayOrd + off) ∈ cfg.business_days →
      cfg.business_hours_start ≤ hour → hour < cfg.business_hours_end →
      (minute = 0 ∨ minute = 30) →
      ¬(hour + (minute + durationOf cfg dm) / 60 > cfg.business_hours_end ∨
        (hour + (minute + durationOf cfg dm) / 60 = cfg.business_hours_end ∧
          (minute + durationOf cfg dm) % 60 > 0)) →
      (off = 0 → (hour * 60 + minute) * 60 > nowSec + 3600) →
      ({ date := todayOrd + off, hour := hour, minute := minute,
         duration_minutes := durationOf cfg dm,
         is_available := decide ((todayOrd + off, hour, minute) ∉ booked) } : TimeSlot) ∈
        generate_slots cfg todayOrd nowSec dm booked) := by
  constructor
  · intro s hs
    obtain ⟨off, hour, minute, hoff, hwd, hh1, hh2, hm, hend, hbuf, rfl⟩ :=
      mem_generate_slots.1 hs
    simp only [slot_end_ok, Bool.not_eq_eq_eq_not, Bool.not_true,
      decide_eq_false_iff_not] at hend
    simp only [buffer_ok, decide_eq_true_eq] at hbuf
    dsimp only
    refine ⟨hwd, hh1, hh2, by omega, by omega, hend, fun hdate => hbuf (by omega)⟩
  · intro off hour minute hoff hwd hh1 hh2 hm hend hbuf
    refine mem_generate_slots.2 ⟨off, hour, minute, hoff, hwd, hh1, hh2, hm, ?_, ?_, rfl⟩
    · simp only [slot_end_ok, Bool.not_eq_eq_eq_not, Bool.not_true,
        decide_eq_false_iff_not]
      exact hend
    · simp only [buffer_ok, decide_eq_true_eq]
      exact hbuf

/-- Witness for C2 at a concrete configuration (default business rules, "now"
at midnight of ordinal day 8, a Monday): the 08:00 slot of that day is
generated. -/
theorem C2_witness :
    ({ date := 8, hour := 8, minute := 0, duration_minutes := 30,
       is_available := true } : TimeSlot) ∈ generate_slots {} 8 0 none [] := by
  have h := (C2_generated_slot_wellformed {} 8 0 none []).2 0 8 0
    (by decide) (by decide) (by decide) (by decide) (Or.inl rfl)
    (by decide) (fun _ => by decide)
  simpa using h

/-- Availability marking of a generated slot decodes the booked-set test. -/
theorem generated_is_available_iff {cfg : SlotConfig} {todayOrd nowSec : Nat}
    {dm : Option Nat} {booked : List (Nat × Nat × Nat)} {s : TimeSlot}
    (hs : s ∈ generate_slots cfg todayOrd nowSec dm booked) :
    s.is_available = true ↔ (s.date, s.hour, s.minute) ∉ booked := by
  obtain ⟨off, hour, minute, _, _, _, _, _, _, _, rfl⟩ := mem_generate_slots.1 hs
  simp [decide_eq_true_eq]

/-- The available-slot list is a sub-sequence of the filtered full catalog. -/
theorem get_available_slots_sublist_filter (cfg : SlotConfig) (todayOrd nowSec : Nat)
    (dm : Option Nat) (booked : List (Nat × Nat × Nat)) (limit : Option Nat) :
    (get_available_slots cfg todayOrd nowSec dm booked limit).Sublist
      ((generate_slots cfg todayOrd nowSec dm booked).filter (fun s => s.is_available)) := by
  rcases limit with _ | l
  · exact List.Sublist.refl _
  · dsimp only [get_available_slots]
    split
    · exact List.take_sublist _ _
    · exact List.Sublist.refl _

/-- C4 (amended).  A generated slot is marked unavailable iff its
(date, time) pair is in the supplied booked set; the available-slot filter is
a sub-sequence of the generated sequence containing exactly the
available-marked slots, its complement within the generated set being exactly
the slots whose (date, time) is booked; and it is truncated to at most the
limit when a nonzero limit is supplied (Python `if limit:` treats a supplied
limit of 0 as no limit — see the counterexample). -/
theorem C4_availability_filter (cfg : SlotConfig) (todayOrd nowSec : Nat)
    (dm : Option Nat) (booked : List (Nat × Nat × Nat)) (limit : Option Nat) :
    (∀ s ∈ generate_slots cfg todayOrd nowSec dm booked,
      (s.is_available = true ↔ (s.date, s.hour, s.minute) ∉ booked)) ∧
    (get_available_slots cfg todayOrd nowSec dm booked limit).Sublist
      (generate_slots cfg todayOrd nowSec dm booked) ∧
    (∀ s ∈ get_available_slots cfg todayOrd nowSec dm booked limit,
      s.is_available = true) ∧
    (∀ s ∈ generate_slots cfg todayOrd nowSec dm booked,
      (s ∉ get_available_slots cfg todayOrd nowSec dm booked none ↔
        (s.date, s.hour, s.minute) ∈ booked)) ∧
    (∀ l, limit = some l → l ≠ 0 →
      (get_available_slots cfg todayOrd nowSec dm booked limit).length ≤ l) := by
  refine ⟨fun s hs => generated_is_available_iff hs, ?_, ?_, ?_, ?_⟩
  · exact (get_available_slots_sublist_filter cfg todayOrd nowSec dm booked limit).trans
      (List.filter_sublist _)
  · intro s hs
    have hmem := (get_available_slots_sublist_filter cfg todayOrd nowSec dm booked
      limit).subset hs
    exact (List.mem_filter.1 hmem).2
  · intro s hs
    have havail := generated_is_available_iff hs
    constructor
    · intro hnot
      by_contra hbk
      exact hnot (List.mem_filter.2 ⟨hs, havail.2 hbk⟩)
    · intro hbk hmem
      exact absurd ((generated_is_available_iff hs).1
        ((List.mem_filter.1 hmem).2)) (by simp [hbk])
  · rintro l rfl hl
    simp only [get_available_slots, if_pos hl]
    exact List.length_take_le _ _

/-- Counterexample to C4 as stated: a supplied limit of 0 does not truncate —
`get_available_slots` returns both generated slots, so its length is not at
most the supplied limit. -/
theorem C4_counterexample :
    ¬ ((get_available_slots cfgC4 8 0 none [] (some 0)).length ≤ 0) := by
  decide

/-- Witness for C4 at a concrete input: with the 08:00 slot booked and limit
1, at most one slot is returned. -/
theorem C4_witness :
    (get_available_slots cfgC4 8 0 none [(8, 8, 0)] (some 1)).length ≤ 1 :=
  (C4_availability_filter cfgC4 8 0 none [(8, 8, 0)] (some 1)).2.2.2.2 1 rfl
    (by decide)

/-- Every slot emitted for one hour loop iteration carries that day and hour. -/
theorem slots_for_hour_shape {cfg : SlotConfig} {dur nowSec : Nat}
    {booked : List (Nat × Nat × Nat)} {cd off hour : Nat} {s : TimeSlot}
    (hs : s ∈ slots_for_hour cfg dur nowSec booked cd off hour) :
    s.date = cd ∧ s.hour = hour := by
  simp only [slots_for_hour, List.mem_map, List.mem_filter] at hs
  obtain ⟨m, _, rfl⟩ := hs
  exact ⟨rfl, rfl⟩

/-- Every slot emitted for one day loop iteration carries that day. -/
theorem slots_for_day_shape {cfg : SlotConfig} {dur nowSec : Nat}
    {booked : List (Nat × Nat × Nat)} {todayOrd off : Nat} {s : TimeSlot}
    (hs : s ∈ slots_for_day cfg dur nowSec booked todayOrd off) :
    s.date = todayOrd + off := by
  simp only [slots_for_day, List.mem_flatMap] at hs
  obtain ⟨hour, _, hmem⟩ := hs
  exact (slots_for_hour_shape hmem).1

/-- C5.  Slot generation is deterministic and idempotent (two calls on equal
inputs give equal lists — in this pure embedding, definitionally), and the
produced sequence is strictly ordered by days ascending, then hours
ascending, then the intra-hour offsets (0, 30) ascending. -/
theorem C5_deterministic_ordered (cfg : SlotConfig) (todayOrd nowSec : Nat)
    (dm : Option Nat) (booked : List (Nat × Nat × Nat)) :
    generate_slots cfg todayOrd nowSec dm booked =
      generate_slots cfg todayOrd nowSec dm booked ∧
    (generate_slots cfg todayOrd nowSec dm booked).Pairwise slotBefore := by
  refine ⟨rfl, ?_⟩
  unfold generate_slots
  refine List.pairwise_flatMap.2 ⟨?_, ?_⟩
  · intro off _
    unfold slots_for_day
    refine List.pairwise_flatMap.2 ⟨?_, ?_⟩
    · intro hour _
      unfold slots_for_hour
      rw [List.pairwise_map]
      refine List.Pairwise.sublist (List.filter_sublist _) ?_
      simp [List.pairwise_cons, slotBefore]
    · refine List.Pairwise.imp ?_
        (List.pairwise_lt_range' cfg.business_hours_start
          (cfg.business_hours_end - cfg.business_hours_start))
      intro h1 h2 hlt b1 hb1 b2 hb2
      obtain ⟨hd1, hh1⟩ := slots_for_hour_shape hb1
      obtain ⟨hd2, hh2⟩ := slots_for_hour_shape hb2
      exact Or.inr ⟨by rw [hd1, hd2], Or.inl (by omega)⟩
  · refine List.Pairwise.imp ?_
      (List.Pairwise.sublist (List.filter_sublist _)
        (List.pairwise_lt_range cfg.booking_advance_days))
    intro o1 o2 hlt b1 hb1 b2 hb2
    have hd1 := slots_for_day_shape hb1
    have hd2 := slots_for_day_shape hb2
    exact Or.inl (by omega)

/-! ## Lemmas about `validate_slot` -/

/-- String concatenation with a nonempty left part is nonempty. -/
theorem append_ne_empty_left {a : String} (b : String) (ha : a ≠ "") :
    a ++ b ≠ "" := by
  intro he
  apply ha
  have hd := congrArg String.data he
  rw [String.data_append] at hd
  exact String.ext (List.append_eq_nil.1 hd).1

/-- Shape of `validate_slot` once both parses succeed: the four business
checks are applied in source order. -/
theorem validate_slot_eq_of_parse {cfg : SlotConfig} {d t : String}
    {todayOrd nowSec dateOrd h m : Nat}
    (hd : parseDate d = some dateOrd) (ht : parseTime t = some (h, m)) :
    validate_slot cfg d t todayOrd nowSec =
      if h < cfg.business_hours_start ∨ cfg.business_hours_end ≤ h then
        (false, "That time is outside business hours (" ++
          toString cfg.business_hours_start ++ ":00 - " ++
          toString cfg.business_hours_end ++ ":00).")
      else if weekday dateOrd ∉ cfg.business_days then
        (false, "That date is not a business day. We\x27re open Monday through Saturday.")
      else if dateOrd * 86400 + (h * 60 + m) * 60 ≤ todayOrd * 86400 + nowSec then
        (false, "That time is in the past. Please choose a future time.")
      else if todayOrd + cfg.booking_advance_days < dateOrd then
        (false, "That\x27s too far in advance. You can book up to " ++
          toString cfg.booking_advance_days ++ " days ahead.")
      else (true, "") := by
  simp only [validate_slot, hd, ht]

/-- C3.  `validate_slot` is a total function returning an explicit
(valid, message) pair: the message is empty exactly when the slot is valid,
and each of the six rejection classes — malformed date, malformed time, time
outside business hours, non-business day, past date/time, date beyond the
advance-booking horizon — produces its own non-empty descriptive message. -/
theorem C3_validate_slot_spec (cfg : SlotConfig) (d t : String)
    (todayOrd nowSec : Nat) :
    ((validate_slot cfg d t todayOrd nowSec).1 = true ↔
      (validate_slot cfg d t todayOrd nowSec).2 = "") ∧
    (parseDate d = none → validate_slot cfg d t todayOrd nowSec =
      (false, "Invalid date format. Please use YYYY-MM-DD.")) ∧
    (∀ dateOrd, parseDate d = some dateOrd → parseTime t = none →
      validate_slot cfg d t todayOrd nowSec =
        (false, "Invalid time format. Please use HH:MM.")) ∧
    (∀ dateOrd h m, parseDate d = some dateOrd → parseTime t = some (h, m) →
      ((h < cfg.business_hours_start ∨ cfg.business_hours_end ≤ h →
        validate_slot cfg d t todayOrd nowSec =
          (false, "That time is outside business hours (" ++
            toString cfg.business_hours_start ++ ":00 - " ++
            toString cfg.business_hours_end ++ ":00).")) ∧
      (cfg.business_hours_start ≤ h → h < cfg.business_hours_end →
        weekday dateOrd ∉ cfg.business_days →
        validate_slot cfg d t todayOrd nowSec =
          (false, "That date is not a business day. We\x27re open Monday through Saturday.")) ∧
      (cfg.business_hours_start ≤ h → h < cfg.business_hours_end →
        weekday dateOrd ∈ cfg.business_days →
        dateOrd * 86400 + (h * 60 + m) * 60 ≤ todayOrd * 86400 + nowSec →
        validate_slot cfg d t todayOrd nowSec =
          (false, "That time is in the past. Please choose a future time.")) ∧
      (cfg.business_hours_start ≤ h → h < cfg.business_hours_end →
        weekday dateOrd ∈ cfg.business_days →
        todayOrd * 86400 + nowSec < dateOrd * 86400 + (h * 60 + m) * 60 →
        todayOrd + cfg.booking_advance_days < dateOrd →
        validate_slot cfg d t todayOrd nowSec =
          (false, "That\x27s too far in advance. You can book up to " ++
            toString cfg.booking_advance_days ++ " days ahead.")) ∧
      (cfg.business_hours_start ≤ h → h < cfg.business_hours_end →
        weekday dateOrd ∈ cfg.business_days →
        todayOrd * 86400 + nowSec < dateOrd * 86400 + (h * 60 + m) * 60 →
        dateOrd ≤ todayOrd + cfg.booking_advance_days →
        validate_slot cfg d t todayOrd nowSec = (true, "")))) := by
  have hM3 : "That time is outside business hours (" ++
      toString cfg.business_hours_start ++ ":00 - " ++
      toString cfg.business_hours_end ++ ":00)." ≠ "" := by
    apply append_ne_empty_left
    apply append_ne_empty_left
    apply append_ne_empty_left
    apply append_ne_empty_left
    decide
  have hM6 : "That\x27s too far in advance. You can book up to " ++
      toString cfg.booking_advance_days ++ " days ahead." ≠ "" := by
    apply append_ne_empty_left
    apply append_ne_empty_left
    decide
  have hM1 : ("Invalid date format. Please use YYYY-MM-DD." : String) ≠ "" := by decide
  have hM2 : ("Invalid time format. Please use HH:MM." : String) ≠ "" := by decide
  have hM4 : ("That date is not a business day. We\x27re open Monday through Saturday." : String) ≠ "" := by
    decide
  have hM5 : ("That time is in the past. Please choose a future time." : String) ≠ "" := by
    decide
  refine ⟨?_, ?_, ?_, ?_⟩
  · rcases hd : parseDate d with _ | dateOrd
    · simp only [validate_slot, hd]
      simp [hM1]
    · rcases ht : parseTime t with _ | ⟨h, m⟩
      · simp only [validate_slot, hd, ht]
        simp [hM2]
      · rw [validate_slot_eq_of_parse hd ht]
        split_ifs with h1 h2 h3 h4 <;> simp_all
  · intro hd
    simp only [validate_slot, hd]
  · intro dateOrd hd ht
    simp only [validate_slot, hd, ht]
  · intro dateOrd h m hd ht
    refine ⟨?_, ?_, ?_, ?_, ?_⟩
    · intro hcond
      rw [validate_slot_eq_of_parse hd ht, if_pos hcond]
    · intro hh1 hh2 hbd
      rw [validate_slot_eq_of_parse hd ht, if_neg (by omega),
        if_pos (by simpa using hbd)]
    · intro hh1 hh2 hbd hpast
      rw [validate_slot_eq_of_parse hd ht, if_neg (by omega),
        if_neg (by simpa using hbd), if_pos hpast]
    · intro hh1 hh2 hbd hfut hadv
      rw [validate_slot_eq_of_parse hd ht, if_neg (by omega),
        if_neg (by simpa using hbd), if_neg (by omega), if_pos hadv]
    · intro hh1 hh2 hbd hfut hadv
      rw [validate_slot_eq_of_parse hd ht, if_neg (by omega),
        if_neg (by simpa using hbd), if_neg (by omega), if_neg (by omega)]

/-- Witness for C3 at a concrete input: 2024-01-07 is a Sunday, so with the
default Mon-Sat business days `validate_slot` rejects it with the
non-business-day message ("now" is midnight of ordinal day 738880, before the
candidate date). -/
theorem C3_witness :
    validate_slot {} "2024-01-07" "09:00" 738880 0 =
      (false, "That date is not a business day. We\x27re open Monday through Saturday.") := by
  have h := ((C3_validate_slot_spec {} "2024-01-07" "09:00" 738880 0).2.2.2
    738892 9 0 (by decide) (by decide)).2.1 (by decide) (by decide) (by decide)
  exact h

/-- C10.  Horizon boundary mismatch: when the calendar date exactly
`booking_advance_days` after "now" is a business day, `validate_slot` accepts
a business-hours future time on that date (it rejects only dates strictly
later than now + booking_advance_days), yet `generate_slots` with the same
configuration and "now" never produces a slot on that date, because it only
enumerates day offsets 0 through booking_advance_days - 1. -/
theorem C10_horizon_boundary_mismatch (cfg : SlotConfig) (todayOrd nowSec : Nat)
    (d t : String) (h m : Nat)
    (hd : parseDate d = some (todayOrd + cfg.booking_advance_days))
    (ht : parseTime t = some (h, m))
    (hh1 : cfg.business_hours_start ≤ h) (hh2 : h < cfg.business_hours_end)
    (hbd : weekday (todayOrd + cfg.booking_advance_days) ∈ cfg.business_days)
    (hfut : todayOrd * 86400 + nowSec <
      (todayOrd + cfg.booking_advance_days) * 86400 + (h * 60 + m) * 60) :
    validate_slot cfg d t todayOrd nowSec = (true, "") ∧
    ∀ dm booked, ∀ s ∈ generate_slots cfg todayOrd nowSec dm booked,
      s.date ≠ todayOrd + cfg.booking_advance_days := by
  constructor
  · rw [validate_slot_eq_of_parse hd ht, if_neg (by omega),
      if_neg (by simpa using hbd), if_neg (by omega), if_neg (by omega)]
  · intro dm booked s hs
    obtain ⟨off, hour, minute, hoff, _, _, _, _, _, _, rfl⟩ :=
      mem_generate_slots.1 hs
    dsimp only
    omega

/-- Witness for C10: with the default configuration (30-day horizon) and
"now" at midnight of ordinal day 8, the date of ordinal 38 (= "0001-02-07",
a Wednesday) validates but is generated by no slot. -/
theorem C10_witness :
    validate_slot {} "0001-02-07" "09:00" 8 0 = (true, "") ∧
    ∀ s ∈ generate_slots {} 8 0 none [], s.date ≠ 38 := by
  have h := C10_horizon_boundary_mismatch {} 8 0 "0001-02-07" "09:00" 9 0
    (by decide) (by decide) (by decide) (by decide) (by decide) (by decide)
  exact ⟨h.1, fun s hs => by simpa using h.2 none [] s hs⟩

/-! ## LLM provider fallback -/

/-- C9.  The primary provider is attempted first; the secondary is attempted
if and only if the primary fails; a successful secondary result is returned;
when both fail the operation fails with an error aggregating both causes; and
neither provider is ever attempted more than once. -/
theorem C9_provider_fallback {α : Type} (primary secondary : Except String α) :
    (∀ r, primary = .ok r →
      generate_response primary secondary = (.ok r, [.gemini])) ∧
    (∀ g r, primary = .error g → secondary = .ok r →
      generate_response primary secondary = (.ok r, [.gemini, .groq])) ∧
    (∀ g q, primary = .error g → secondary = .error q →
      generate_response primary secondary =
        (.error ("All LLM providers failed. Gemini: " ++ g ++ ", Groq: " ++ q),
         [.gemini, .groq])) ∧
    (ProviderType.groq ∈ (generate_response primary secondary).2 ↔
      ∃ g, primary = .error g) ∧
    ((generate_response primary secondary).2.count ProviderType.gemini ≤ 1 ∧
     (generate_response primary secondary).2.count ProviderType.groq ≤ 1) := by
  rcases primary with g | r <;> rcases secondary with q | r2 <;>
    simp [generate_response, List.count_cons]

/-- Witness for C9: with a failing primary and a succeeding secondary, the
secondary result is returned after both providers were attempted in order. -/
theorem C9_witness :
    generate_response (Except.error "boom" : Except String Nat) (Except.ok 7) =
      (Except.ok 7, [ProviderType.gemini, ProviderType.groq]) :=
  (C9_provider_fallback (Except.error "boom") (Except.ok 7)).2.1 "boom" 7 rfl rfl

/-! ## Tool-layer theorems -/

/-- C8.  `end_conversation` always sets the termination flag and succeeds;
its summary payload carries the three session lists unchanged; and the
farewell is chosen by the priority booked > modified > cancelled > generic,
referencing the most recent entry of the chosen list — in particular, after
exactly one booking and no modifications or cancellations the farewell
references that booking\x27s date and time and the summary\x27s booked list
has exactly one entry. -/
theorem C8_end_conversation_spec (st : ConversationState) (reason : String) :
    (end_conversation st reason).2.should_end = true ∧
    (end_conversation st reason).1.success = true ∧
    (end_conversation st reason).1.data =
      .summaryData reason st.appointments_booked st.appointments_modified
        st.appointments_cancelled st.is_identified ∧
    (∀ b, st.appointments_booked.getLast? = some b →
      (end_conversation st reason).1.verbal_response =
        "Great! Your appointment is confirmed for " ++ b.date ++ " at " ++
          b.time ++ ". Have a wonderful day!") ∧
    (st.appointments_booked = [] →
      ∀ m, st.appointments_modified.getLast? = some m →
      (end_conversation st reason).1.verbal_response =
        "Your appointment has been updated to " ++ m.new_date ++ " at " ++
          m.new_time ++ ". Take care!") ∧
    (st.appointments_booked = [] → st.appointments_modified = [] →
      st.appointments_cancelled ≠ [] →
      (end_conversation st reason).1.verbal_response =
        "Your appointment has been cancelled. Feel free to reach out when you\x27d like to schedule again. Goodbye!") ∧
    (st.appointments_booked = [] → st.appointments_modified = [] →
      st.appointments_cancelled = [] →
      (end_conversation st reason).1.verbal_response =
        "Thank you for calling. Have a great day!") ∧
    (∀ b, st.appointments_booked = [b] →
      (end_conversation st reason).1.verbal_response =
        "Great! Your appointment is confirmed for " ++ b.date ++ " at " ++
          b.time ++ ". Have a wonderful day!" ∧
      (end_conversation st reason).1.data =
        .summaryData reason [b] st.appointments_modified
          st.appointments_cancelled st.is_identified) := by
  refine ⟨by simp [end_conversation], by simp [end_conversation],
    by simp [end_conversation], ?_, ?_, ?_, ?_, ?_⟩
  · intro b hb
    simp [end_conversation, hb]
  · intro hbe m hm
    simp [end_conversation, hbe, hm]
  · intro hbe hme hc
    obtain ⟨c, cs, hcc⟩ := List.exists_cons_of_ne_nil hc
    simp [end_conversation, hbe, hme, hcc]
  · intro hbe hme hce
    simp [end_conversation, hbe, hme, hce]
  · intro b hb
    exact ⟨by simp [end_conversation, hb], by simp [end_conversation, hb]⟩

/-- Witness for C8 at a concrete session state with exactly one booking. -/
theorem C8_witness :
    (end_conversation stC8 "user_requested").1.verbal_response =
      "Great! Your appointment is confirmed for 2025-03-10 at 14:00. Have a wonderful day!" := by
  have h := (C8_end_conversation_spec stC8 "user_requested").2.2.2.1
    { id := some 0, date := "2025-03-10", time := "14:00", purpose := none } rfl
  simpa using h

/-- C6.  Invoking `book_appointment`, `retrieve_appointments`,
`cancel_appointment` or `modify_appointment` while the session is not
identified returns a failure result whose spoken response prompts for the
phone number, performs no store write, and leaves the session state
unchanged. -/
theorem C6_identification_guard (cfg : SlotConfig) (todayOrd nowSec : Nat)
    (st : ConversationState) (db : Store) (hid : st.is_identified = false) :
    (∀ date time purpose dmin uname,
      book_appointment cfg todayOrd nowSec st db date time purpose dmin uname =
        ({ success := false, error := some "User not identified",
           verbal_response := "Before I can book an appointment, I\x27ll need your phone number. What\x27s your phone number?" },
         st, db) ∧
      mentionsPhoneNumber
        (book_appointment cfg todayOrd nowSec st db date time purpose dmin
          uname).1.verbal_response = true) ∧
    (∀ include_past status todayStr,
      retrieve_appointments st db include_past status todayStr =
        ({ success := false, error := some "User not identified",
           verbal_response := "I\x27ll need your phone number to look up your appointments. What\x27s your phone number?" },
         st, db) ∧
      mentionsPhoneNumber
        (retrieve_appointments st db include_past status
          todayStr).1.verbal_response = true) ∧
    (∀ id date time,
      cancel_appointment st db id date time =
        ({ success := false, error := some "User not identified",
           verbal_response := "I need to verify your phone number before I can cancel appointments." },
         st, db) ∧
      mentionsPhoneNumber
        (cancel_appointment st db id date time).1.verbal_response = true) ∧
    (∀ id cd ct nd nt,
      modify_appointment cfg todayOrd nowSec st db id cd ct nd nt =
        ({ success := false, error := some "User not identified",
           verbal_response := "I need your phone number before I can modify appointments." },
         st, db) ∧
      mentionsPhoneNumber
        (modify_appointment cfg todayOrd nowSec st db id cd ct
          nd nt).1.verbal_response = true) := by
  refine ⟨?_, ?_, ?_, ?_⟩
  · intro date time purpose dmin uname
    have he : book_appointment cfg todayOrd nowSec st db date time purpose dmin uname =
        ({ success := false, error := some "User not identified",
           verbal_response := "Before I can book an appointment, I\x27ll need your phone number. What\x27s your phone number?" },
         st, db) := by
      simp [book_appointment, hid]
    exact ⟨he, by rw [he]; rfl⟩
  · intro include_past status todayStr
    have he : retrieve_appointments st db include_past status todayStr =
        ({ success := false, error := some "User not identified",
           verbal_response := "I\x27ll need your phone number to look up your appointments. What\x27s your phone number?" },
         st, db) := by
      simp [retrieve_appointments, hid]
    exact ⟨he, by rw [he]; rfl⟩
  · intro id date time
    have he : cancel_appointment st db id date time =
        ({ success := false, error := some "User not identified",
           verbal_response := "I need to verify your phone number before I can cancel appointments." },
         st, db) := by
      simp [cancel_appointment, hid]
    exact ⟨he, by rw [he]; rfl⟩
  · intro id cd ct nd nt
    have he : modify_appointment cfg todayOrd nowSec st db id cd ct nd nt =
        ({ success := false, error := some "User not identified",
           verbal_response := "I need your phone number before I can modify appointments." },
         st, db) := by
      simp [modify_appointment, hid]
    exact ⟨he, by rw [he]; rfl⟩

/-- Witness for C6: the cancel tool invoked on an unidentified session. -/
theorem C6_witness :
    cancel_appointment stC6 {} none none none =
      ({ success := false, error := some "User not identified",
         verbal_response := "I need to verify your phone number before I can cancel appointments." },
       stC6, {}) ∧
    mentionsPhoneNumber
      (cancel_appointment stC6 {} none none none).1.verbal_response = true :=
  (C6_identification_guard {} 0 0 stC6 {} rfl).2.2.1 none none none

/-! ## Store-level lemmas for booking -/

/-- The availability probe fails exactly when some row is `scheduled` at the
probed (date, time). -/
theorem check_slot_available_false_iff {db : Store} {date time : String} :
    check_slot_available db date time = false ↔
      ∃ a ∈ db.appointments, a.date = date ∧ a.time = time ∧
        a.status = AppointmentStatus.scheduled := by
  simp [check_slot_available, List.any_eq_true, beq_iff_eq, and_assoc]

/-- Bumping the user counter does not touch the appointments table. -/
theorem increment_user_appointments_appointments (st : Store) (phone : String) :
    (increment_user_appointments st phone).appointments = st.appointments := by
  unfold increment_user_appointments
  split <;> rfl

/-- Theorem: `create_appointment` preserves the at-most-one-scheduled-per-slot
invariant. -/
theorem create_appointment_preserves_invariant {db : Store} {apt created : Appointment}
    {db1 : Store} (hinv : AtMostOneScheduled db)
    (hok : create_appointment db apt = .ok (created, db1)) :
    AtMostOneScheduled db1 := by
  unfold create_appointment at hok
  split at hok
  case isTrue hav =>
    injection hok with hok
    injection hok with hc hdb
    subst hdb
    unfold AtMostOneScheduled
    rw [increment_user_appointments_appointments]
    refine List.pairwise_append.2 ⟨hinv, List.pairwise_singleton _ _, ?_⟩
    intro a ha b hb
    simp only [List.mem_singleton] at hb
    subst hb
    rintro ⟨has, hbs, hdate, htime⟩
    have : check_slot_available db apt.date apt.time = false :=
      check_slot_available_false_iff.2 ⟨a, ha, by simpa using hdate,
        by simpa using htime, has⟩
    rw [this] at hav
    exact absurd hav (by simp)
  case isFalse => exact absurd hok (by simp)

/-- C1.  Booking an already-occupied valid slot by an identified user fails:
the tool returns the conflict result, the store and the session state
(including the booked/modified/cancelled lists) are unchanged; the store\x27s
`create_appointment` itself re-checks availability and fails with a conflict
error for that slot; and a successful `create_appointment` preserves the
at-most-one-scheduled-per-(date, time) invariant, so it holds under
sequential execution. -/
theorem C1_book_occupied_slot (cfg : SlotConfig) (todayOrd nowSec : Nat)
    (st : ConversationState) (db : Store) (date time : String)
    (purpose : Option String) (dmin : Nat) (uname : Option String)
    (hid : st.is_identified = true)
    (hvalid : (validate_slot cfg date time todayOrd nowSec).1 = true)
    (hocc : ∃ a ∈ db.appointments, a.date = date ∧ a.time = time ∧
      a.status = AppointmentStatus.scheduled) :
    book_appointment cfg todayOrd nowSec st db date time purpose dmin uname =
      ({ success := false, error := some "Slot already booked",
         verbal_response := "I\x27m sorry, that slot was just taken. Would you like me to find another available time?" },
       st, db) ∧
    (∀ apt : Appointment, apt.date = date → apt.time = time →
      create_appointment db apt =
        .error ("Slot " ++ date ++ " at " ++ time ++ " is already booked")) ∧
    (∀ db0 apt created db1, AtMostOneScheduled db0 →
      create_appointment db0 apt = .ok (created, db1) →
      AtMostOneScheduled db1) := by
  have hchk : check_slot_available db date time = false :=
    check_slot_available_false_iff.2 hocc
  refine ⟨?_, ?_, fun db0 apt created db1 hi hok =>
    create_appointment_preserves_invariant hi hok⟩
  · simp [book_appointment, hid, hvalid, hchk]
  · intro apt hdate htime
    unfold create_appointment
    rw [hdate, htime, hchk]
    simp

/-- Witness for C1: booking 2025-03-10 14:00 (a valid Monday slot, "now"
being midnight of 2025-03-01) when that slot is already occupied. -/
theorem C1_witness :
    book_appointment {} 739311 0 stC1 dbC1 "2025-03-10" "14:00" none 30 none =
      ({ success := false, error := some "Slot already booked",
         verbal_response := "I\x27m sorry, that slot was just taken. Would you like me to find another available time?" },
       stC1, dbC1) :=
  (C1_book_occupied_slot {} 739311 0 stC1 dbC1 "2025-03-10" "14:00" none 30 none
    rfl (by decide) (by decide)).1

/-- C7.  A cancel or modify request by an identified user naming an
appointment id that does not exist or belongs to another phone number yields
the "not found" failure with the store (hence the targeted appointment) and
the session lists unchanged; and resolution by (date, time) only ever
resolves to one of the calling user\x27s own `scheduled` appointments. -/
theorem C7_ownership_guard (cfg : SlotConfig) (todayOrd nowSec : Nat)
    (st : ConversationState) (db : Store) (hid : st.is_identified = true) :
    (∀ id date time,
      (get_appointment_by_id db id = none ∨
        ∃ apt, get_appointment_by_id db id = some apt ∧
          st.user_phone ≠ some apt.user_phone) →
      cancel_appointment st db (some id) date time =
        ({ success := false, error := some "Appointment not found",
           verbal_response := "I couldn\x27t find that appointment. Could you tell me the date and time?" },
         st, db)) ∧
    (∀ id current_date current_time new_date new_time,
      (pyTruthy new_date || pyTruthy new_time) = true →
      (get_appointment_by_id db id = none ∨
        ∃ apt, get_appointment_by_id db id = some apt ∧
          st.user_phone ≠ some apt.user_phone) →
      modify_appointment cfg todayOrd nowSec st db (some id) current_date
          current_time new_date new_time =
        ({ success := false, error := some "Appointment not found",
           verbal_response := "I couldn\x27t find that appointment." },
         st, db)) ∧
    (∀ date time apt,
      find_own_scheduled db (st.user_phone.getD "") date time = some apt →
      apt.user_phone = st.user_phone.getD "" ∧
        apt.status = AppointmentStatus.scheduled ∧ apt ∈ db.appointments) := by
  refine ⟨?_, ?_, ?_⟩
  · intro id date time hcase
    rcases hcase with hnone | ⟨apt, hsome, hne⟩
    · simp [cancel_appointment, hid, hnone]
    · simp [cancel_appointment, hid, hsome, beq_iff_eq, hne]
  · intro id cd ct nd nt hchange hcase
    have hht : (!pyTruthy nd && !pyTruthy nt) = false := by
      cases hpd : pyTruthy nd <;> cases hpt : pyTruthy nt <;> simp_all
    rcases hcase with hnone | ⟨apt, hsome, hne⟩
    · simp [modify_appointment, hid, hnone, hht]
    · simp [modify_appointment, hid, hsome, beq_iff_eq, hne, hht]
  · intro date time apt hfind
    unfold find_own_scheduled at hfind
    have hmem := List.mem_of_find?_eq_some hfind
    rw [get_appointments_by_phone, List.mem_insertionSort, List.mem_filter] at hmem
    obtain ⟨hmemdb, hcond⟩ := hmem
    simp only [Bool.and_eq_true, beq_iff_eq, Bool.or_eq_true] at hcond
    exact ⟨hcond.1.1, hcond.1.2, hmemdb⟩

/-- Witness for C7: cancelling by the id of an appointment owned by another
phone number fails as "not found" and changes nothing. -/
theorem C7_witness :
    cancel_appointment stC7 dbC7 (some 4) none none =
      ({ success := false, error := some "Appointment not found",
         verbal_response := "I couldn\x27t find that appointment. Could you tell me the date and time?" },
       stC7, dbC7) :=
  (C7_ownership_guard {} 0 0 stC7 dbC7 rfl).1 4 none none
    (Or.inr ⟨aptC7, by decide, by decide⟩)

end SuperBryn
